import Mathlib

/-!
# pybind11: embedded-interpreter lifecycle and the smart-holder casters

A shallow embedding of `include/pybind11/embed.h` and of the caster base
`smart_holder_type_caster_load` and the unique-pointer casters of
`tests/test_classh_wip.cpp`.

Conventions of the embedding

* The process-wide state the header reads and writes (the CPython runtime flag,
  the inittab, `sys.path`, the interpreters-seen counter, the two internals
  pointer-to-pointer managers) is one explicit record, `World`, passed through
  every operation.  Every call into CPython or into pybind11 internals that
  acts on this state or on an object of the caller is also logged, in order,
  in `World.trace`.  `PyConfig_InitPythonConfig`, which only fills the local
  `PyConfig` of the options overload, is a plain value and is not logged.
* What CPython answers to a call (a `PyStatus`, the result of
  `PyImport_AppendInittab`, what finalization leaves behind) is not decided by
  the header; it is an explicit argument of the operation that makes the call.
* A C++ function that can throw returns an `Outcome` next to the new world; the
  writes made before the throw stay in the world.
* `embed.h` is read in the configuration
  `PY_VERSION_HEX >= PYBIND11_PYCONFIG_SUPPORT_PY_VERSION_HEX`, the one in which
  both overloads of `initialize_interpreter` exist.  The other branch,
  `initialize_interpreter_pre_pyconfig`, is embedded as a function of its own.
-/

namespace pybind11

/-! ## Exceptions and outcomes -/

/-- The C++ exception `std::runtime_error(what)`. -/
structure runtime_error where
  what : String
deriving DecidableEq, Repr

/-- How a call ends: it returns, it throws a C++ exception that the caller can
catch, or the process is terminated (CPython fatal error). -/
inductive Outcome where
  | returned
  | thrown (e : runtime_error)
  | terminated
deriving DecidableEq, Repr

/-- `pybind11_fail(reason)`: throws `std::runtime_error(reason)`. -/
def pybind11_fail (reason : String) : Outcome :=
  Outcome.thrown (runtime_error.mk reason)

/-! ## CPython configuration and status values -/

/-- The fields of CPython `PyConfig` that `embed.h` reads or writes. -/
structure PyConfig where
  parse_argv : Int
  install_signal_handlers : Int
  argv : List String
deriving DecidableEq, Repr

/-- CPython `PyStatus`: success, an error carrying `err_msg`, or an exit request. -/
inductive PyStatus where
  | ok
  | error (err_msg : String)
  | exit (exitcode : Int)
deriving DecidableEq, Repr

/-- `PyStatus_Exception(status)`: non-zero for an error or an exit. -/
def PyStatus_Exception : PyStatus → Int
  | PyStatus.ok => 0
  | _ => 1

/-- `PyStatus_IsError(status)`: non-zero for an error only. -/
def PyStatus_IsError : PyStatus → Int
  | PyStatus.error _ => 1
  | _ => 0

/-- The `err_msg` field of a status (empty when the status carries none). -/
def PyStatus.err_msg : PyStatus → String
  | PyStatus.error m => m
  | _ => ""

/-! ## The process-wide world -/

/-- The two pointer-to-pointer managers of pybind11 internals. -/
inductive Manager where
  | internals
  | local_internals
deriving DecidableEq, Repr

/-- Modelled from the spec: `internals_pp_manager` (declared in `internals.h`,
which is not among the sources).  The spec describes a pointer-to-pointer
indirection to session-local state: `pp_cached` says that the indirection is
currently held, `payload_alive` that the session-local state behind it exists. -/
structure pp_manager where
  pp_cached : Bool
  payload_alive : Bool
deriving DecidableEq, Repr

/-- One call into CPython or into pybind11 internals, as logged in the trace. -/
inductive Event where
  | PyImport_AppendInittab (name : String) (init : Nat)
  | PyConfig_SetBytesArgv (argv : List String)
  | Py_InitializeFromConfig (config : PyConfig)
  | PyRun_SimpleString
  | PyConfig_Clear
  | Py_InitializeEx (initsigs : Int)
  | PySys_SetArgvEx (argv : List String) (updatepath : Int)
  | unref (m : Manager)
  | get_pp (m : Manager)
  | destroy (m : Manager)
  | Py_Finalize
  | set_num_interpreters_seen (n : Nat)
deriving DecidableEq, Repr

/-- The process-wide state. `num_interpreters_seen` is the counter behind
`detail::get_num_interpreters_seen()`. -/
structure World where
  py_initialized : Bool
  inittab : List (String × Nat)
  handed_config : Option PyConfig
  sys_path : List String
  num_interpreters_seen : Nat
  internals_pp_manager : pp_manager
  local_internals_pp_manager : pp_manager
  trace : List Event
deriving DecidableEq, Repr

/-- Append an event to the trace. -/
def World.log (w : World) (e : Event) : World :=
  { w with trace := w.trace ++ [e] }

/-- `Py_IsInitialized()`. -/
def Py_IsInitialized (w : World) : Int :=
  if w.py_initialized then 1 else 0

/-! ## `embedded_module` -/

/-- `PyImport_AppendInittab(name, init)`, by its CPython contract: the entry is
added and 0 is returned, or the table could not be extended and -1 is returned.
`can_extend` is the runtime's answer. -/
def PyImport_AppendInittab (can_extend : Bool) (name : String) (init : Nat) (w : World) :
    Int × World :=
  let w := w.log (Event.PyImport_AppendInittab name init)
  if can_extend then (0, { w with inittab := w.inittab ++ [(name, init)] }) else (-1, w)

/-- The constructor `embedded_module(name, init)`. -/
def embedded_module (can_extend : Bool) (name : String) (init : Nat) (w : World) :
    Outcome × World :=
  if Py_IsInitialized w != 0 then
    (pybind11_fail "Can't add new modules after the interpreter has been initialized", w)
  else
    let (result, w) := PyImport_AppendInittab can_extend name init w
    if result == -1 then
      (pybind11_fail "Insufficient memory to add a new module", w)
    else
      (Outcome.returned, w)

/-- The spec's name for the failure of a registration after runtime startup. -/
def TooLate : Outcome :=
  pybind11_fail "Can't add new modules after the interpreter has been initialized"

/-- The spec's name for the allocation failure during registration. -/
def InsufficientResources : Outcome :=
  pybind11_fail "Insufficient memory to add a new module"

/-! ## Starting the interpreter -/

/-- `detail::precheck_interpreter()`. -/
def precheck_interpreter (w : World) : Outcome :=
  if Py_IsInitialized w != 0 then
    pybind11_fail "The interpreter is already running"
  else
    Outcome.returned

/-- What the CPython runtime answers during one start: the status of
`PyConfig_SetBytesArgv`, the status of `Py_InitializeFromConfig`, and the value
of the expression that the `sys.path` snippet inserts (the absolute directory
of `sys.argv[0]` when that file exists, the empty string otherwise). -/
structure StartReplies where
  argv_status : PyStatus
  init_status : PyStatus
  program_dir : String
deriving DecidableEq, Repr

/-- `PyConfig_InitPythonConfig(&config)`: the Python-mode defaults of the fields
in the model, as CPython documents them. -/
def PyConfig_InitPythonConfig : PyConfig :=
  { parse_argv := 1, install_signal_handlers := 1, argv := [] }

/-- `PyConfig_SetBytesArgv(config, argc, argv)`: on success the decoded
arguments are stored in the config. -/
def PyConfig_SetBytesArgv (rt : StartReplies) (config : PyConfig) (argv : List String)
    (w : World) : PyStatus × PyConfig × World :=
  let w := w.log (Event.PyConfig_SetBytesArgv argv)
  match rt.argv_status with
  | PyStatus.ok => (PyStatus.ok, { config with argv := argv }, w)
  | s => (s, config, w)

/-- `Py_InitializeFromConfig(config)`: the runtime is handed the config and, on
success, is running. -/
def Py_InitializeFromConfig (rt : StartReplies) (config : PyConfig) (w : World) :
    PyStatus × World :=
  let w := w.log (Event.Py_InitializeFromConfig config)
  let w := { w with handed_config := some config }
  match rt.init_status with
  | PyStatus.ok => (PyStatus.ok, { w with py_initialized := true })
  | s => (s, w)

/-- `PyConfig_Clear(config)`: releases the strings and lists of the config. -/
def PyConfig_Clear (config : PyConfig) (w : World) : PyConfig × World :=
  ({ config with argv := [] }, w.log Event.PyConfig_Clear)

/-- The `PyRun_SimpleString` call of `initialize_interpreter`: the snippet
inserts the program directory at the front of `sys.path`. -/
def PyRun_SimpleString (rt : StartReplies) (w : World) : World :=
  let w := w.log Event.PyRun_SimpleString
  { w with sys_path := rt.program_dir :: w.sys_path }

/-- The overload `initialize_interpreter(PyConfig *config, argc, argv,
add_program_dir_to_path)`. The config is the caller's; its final value is
returned. -/
def initialize_interpreter_config (config : PyConfig) (argv : List String)
    (add_program_dir_to_path : Bool) (rt : StartReplies) (w : World) :
    Outcome × PyConfig × World :=
  match precheck_interpreter w with
  | Outcome.returned =>
    let (status, config, w) := PyConfig_SetBytesArgv rt config argv w
    if PyStatus_Exception status != 0 then
      let (config, w) := PyConfig_Clear config w
      (Outcome.thrown (runtime_error.mk
        (if PyStatus_IsError status != 0 then status.err_msg else "Failed to prepare CPython")),
        config, w)
    else
      let (status, w) := Py_InitializeFromConfig rt config w
      if PyStatus_Exception status != 0 then
        let (config, w) := PyConfig_Clear config w
        (Outcome.thrown (runtime_error.mk
          (if PyStatus_IsError status != 0 then status.err_msg else "Failed to init CPython")),
          config, w)
      else
        let w := if add_program_dir_to_path then PyRun_SimpleString rt w else w
        let (config, w) := PyConfig_Clear config w
        (Outcome.returned, config, w)
  | failure => (failure, config, w)

/-- The assignment `detail::get_num_interpreters_seen() = n`. -/
def set_num_interpreters_seen (n : Nat) (w : World) : World :=
  { w with num_interpreters_seen := n }.log (Event.set_num_interpreters_seen n)

/-- The overload `initialize_interpreter(bool init_signal_handlers, argc, argv,
add_program_dir_to_path)`. The `PyConfig` is a local of the function. -/
def initialize_interpreter (init_signal_handlers : Bool) (argv : List String)
    (add_program_dir_to_path : Bool) (rt : StartReplies) (w : World) : Outcome × World :=
  let config := PyConfig_InitPythonConfig
  let config := { config with parse_argv := 0 }
  let config := { config with install_signal_handlers := if init_signal_handlers then 1 else 0 }
  match initialize_interpreter_config config argv add_program_dir_to_path rt w with
  | (Outcome.returned, _, w) => (Outcome.returned, set_num_interpreters_seen 1 w)
  | (failure, _, w) => (failure, w)

/-- The spec's name for the failure of `initialize` while already running. -/
def AlreadyRunning : Outcome :=
  pybind11_fail "The interpreter is already running"

/-! ## The pre-PyConfig start (the other preprocessor branch) -/

/-- What the CPython runtime answers during a pre-PyConfig start: whether
`Py_InitializeEx` can start the runtime, and the arguments that
`Py_DecodeLocale` cannot decode. -/
structure PreReplies where
  init_ok : Bool
  undecodable : List String
  program_dir : String
deriving DecidableEq, Repr

/-- `Py_InitializeEx(initsigs)`, by the CPython contract the documentation of
`initialize_interpreter` refers to: a failed initialization is a fatal error
of the runtime, which terminates the process. -/
def Py_InitializeEx (rt : PreReplies) (initsigs : Int) (w : World) : Outcome × World :=
  let w := w.log (Event.Py_InitializeEx initsigs)
  if rt.init_ok then (Outcome.returned, { w with py_initialized := true })
  else (Outcome.terminated, w)

/-- `detail::widen_chars(safe_arg)`: the widened argument, or null. -/
def widen_chars (rt : PreReplies) (safe_arg : String) : Option String :=
  if safe_arg ∈ rt.undecodable then none else some safe_arg

/-- `PySys_SetArgvEx(argc, argv, updatepath)`: sets `sys.argv` and, when
`updatepath` is non-zero, puts the program directory in front of `sys.path`. -/
def PySys_SetArgvEx (rt : PreReplies) (argv : List String) (updatepath : Int) (w : World) :
    World :=
  let w := w.log (Event.PySys_SetArgvEx argv updatepath)
  if updatepath != 0 then { w with sys_path := rt.program_dir :: w.sys_path } else w

/-- `detail::initialize_interpreter_pre_pyconfig`. The widening loop gives up,
by a plain return, at the first argument that cannot be widened. -/
def initialize_interpreter_pre_pyconfig (init_signal_handlers : Bool) (argv : List String)
    (add_program_dir_to_path : Bool) (rt : PreReplies) (w : World) : Outcome × World :=
  match precheck_interpreter w with
  | Outcome.returned =>
    match Py_InitializeEx rt (if init_signal_handlers then 1 else 0) w with
    | (Outcome.returned, w) =>
      match argv.mapM (widen_chars rt) with
      | none => (Outcome.returned, w)
      | some widened_argv =>
        (Outcome.returned,
          PySys_SetArgvEx rt widened_argv (if add_program_dir_to_path then 1 else 0) w)
    | (failure, w) => (failure, w)
  | failure => (failure, w)

/-! ## Shutting the interpreter down -/

/-- The manager of the world that `get_internals_pp_manager()` or
`get_local_internals_pp_manager()` returns. -/
def World.manager (w : World) : Manager → pp_manager
  | Manager.internals => w.internals_pp_manager
  | Manager.local_internals => w.local_internals_pp_manager

/-- Store a manager back in the world. -/
def World.set_manager (w : World) : Manager → pp_manager → World
  | Manager.internals, p => { w with internals_pp_manager := p }
  | Manager.local_internals, p => { w with local_internals_pp_manager := p }

/-- Modelled from the spec: `internals_pp_manager::unref()`, the drop of the
held pointer-to-pointer indirection. -/
def unref (m : Manager) (w : World) : World :=
  (w.set_manager m { w.manager m with pp_cached := false }).log (Event.unref m)

/-- Modelled from the spec: `internals_pp_manager::get_pp()`, which fetches the
pointer-to-pointer again (but not the state behind it). -/
def get_pp (m : Manager) (w : World) : World :=
  (w.set_manager m { w.manager m with pp_cached := true }).log (Event.get_pp m)

/-- Modelled from the spec: `internals_pp_manager::destroy()`, which destroys
the session-local state behind the indirection and drops the indirection. -/
def destroy (m : Manager) (w : World) : World :=
  (w.set_manager m { pp_cached := false, payload_alive := false }).log (Event.destroy m)

/-- What finalization leaves behind: whether the internals, or the local
internals, are created while `Py_Finalize()` runs (the header comment gives a
`py::capsule` destructor calling `get_internals()` as an example). -/
structure FinalizeReplies where
  creates_internals : Bool
  creates_local_internals : Bool
deriving DecidableEq, Repr

/-- `Py_Finalize()`: the runtime is torn down. -/
def Py_Finalize (fin : FinalizeReplies) (w : World) : World :=
  let w := w.log Event.Py_Finalize
  { w with
    py_initialized := false
    internals_pp_manager :=
      { w.internals_pp_manager with
        payload_alive := w.internals_pp_manager.payload_alive || fin.creates_internals }
    local_internals_pp_manager :=
      { w.local_internals_pp_manager with
        payload_alive :=
          w.local_internals_pp_manager.payload_alive || fin.creates_local_internals } }

/-- `finalize_interpreter()`. -/
def finalize_interpreter (fin : FinalizeReplies) (w : World) : World :=
  let w :=
    if w.num_interpreters_seen > 1 then
      let w := unref Manager.internals w
      let w := unref Manager.local_internals w
      set_num_interpreters_seen 1 w
    else w
  let w := get_pp Manager.internals w
  let w := get_pp Manager.local_internals w
  let w := Py_Finalize fin w
  let w := destroy Manager.internals w
  let w := destroy Manager.local_internals w
  set_num_interpreters_seen 0 w

/-! ## `scoped_interpreter` -/

/-- The class `scoped_interpreter`: its only member is `is_valid`, initialised
to `true` by the default member initialiser. -/
structure scoped_interpreter where
  is_valid : Bool := true
deriving DecidableEq, Repr

/-- The constructor `scoped_interpreter(bool init_signal_handlers, argc, argv,
add_program_dir_to_path)`. No object exists when the body throws. -/
def scoped_interpreter.ctor (init_signal_handlers : Bool) (argv : List String)
    (add_program_dir_to_path : Bool) (rt : StartReplies) (w : World) :
    Outcome × Option scoped_interpreter × World :=
  match initialize_interpreter init_signal_handlers argv add_program_dir_to_path rt w with
  | (Outcome.returned, w) => (Outcome.returned, some {}, w)
  | (failure, w) => (failure, none, w)

/-- The constructor `scoped_interpreter(PyConfig *config, argc, argv,
add_program_dir_to_path)`. -/
def scoped_interpreter.ctor_config (config : PyConfig) (argv : List String)
    (add_program_dir_to_path : Bool) (rt : StartReplies) (w : World) :
    Outcome × Option scoped_interpreter × PyConfig × World :=
  match initialize_interpreter_config config argv add_program_dir_to_path rt w with
  | (Outcome.returned, config, w) => (Outcome.returned, some {}, config, w)
  | (failure, config, w) => (failure, none, config, w)

/-- The move constructor `scoped_interpreter(scoped_interpreter &&other)`:
returns the new guard and the moved-from `other`. -/
def scoped_interpreter.move_ctor (other : scoped_interpreter) :
    scoped_interpreter × scoped_interpreter :=
  ({}, { other with is_valid := false })

/-- The destructor `~scoped_interpreter()`. -/
def scoped_interpreter.dtor (self : scoped_interpreter) (fin : FinalizeReplies) (w : World) :
    World :=
  if self.is_valid then finalize_interpreter fin w else w

/-- The number of times the runtime has been torn down so far; every call of
`finalize_interpreter` tears it down once. -/
def finalize_calls (w : World) : Nat :=
  w.trace.count Event.Py_Finalize

/-- One move-construction in a program whose guards are numbered in order of
construction: a new guard is move-constructed from guard number `src`. -/
def move_construct (guards : List scoped_interpreter) (src : Nat) : List scoped_interpreter :=
  match guards[src]? with
  | none => guards
  | some other =>
    let (new_guard, other) := scoped_interpreter.move_ctor other
    guards.set src other ++ [new_guard]

/-- A finite sequence of move-constructions, each naming its source guard. -/
def move_constructions (guards : List scoped_interpreter) (srcs : List Nat) :
    List scoped_interpreter :=
  srcs.foldl move_construct guards

/-- Destroy every guard, in reverse order of construction. -/
def destroy_all (fin : FinalizeReplies) (guards : List scoped_interpreter) (w : World) : World :=
  guards.reverse.foldl (fun w g => g.dtor fin w) w

/-! ## Lifecycle states -/

/-- The lifecycle states: from any state that is not running with counter 0,
by calls of either overload of `initialize_interpreter` and of
`finalize_interpreter`. -/
inductive Reachable : World → Prop where
  | start (w : World) (hrun : w.py_initialized = false) (hnum : w.num_interpreters_seen = 0) :
      Reachable w
  | init (w : World) (init_signal_handlers : Bool) (argv : List String)
      (add_program_dir_to_path : Bool) (rt : StartReplies) (h : Reachable w) :
      Reachable (initialize_interpreter init_signal_handlers argv add_program_dir_to_path rt w).2
  | init_config (w : World) (config : PyConfig) (argv : List String)
      (add_program_dir_to_path : Bool) (rt : StartReplies) (h : Reachable w) :
      Reachable (initialize_interpreter_config config argv add_program_dir_to_path rt w).2.2
  | fini (w : World) (fin : FinalizeReplies) (h : Reachable w) :
      Reachable (finalize_interpreter fin w)

/-- A world before any start: nothing registered, nothing running. -/
def World.fresh : World :=
  { py_initialized := false
    inittab := []
    handed_config := none
    sys_path := []
    num_interpreters_seen := 0
    internals_pp_manager := { pp_cached := false, payload_alive := false }
    local_internals_pp_manager := { pp_cached := false, payload_alive := false }
    trace := [] }

/-- Runtime replies of a start in which nothing fails. -/
def StartReplies.success : StartReplies :=
  { argv_status := PyStatus.ok, init_status := PyStatus.ok, program_dir := "" }

/-- Finalization that creates nothing. -/
def FinalizeReplies.quiet : FinalizeReplies :=
  { creates_internals := false, creates_local_internals := false }

/-- Runtime replies of a start in which `PyConfig_SetBytesArgv` fails. -/
def StartReplies.argv_failure : StartReplies :=
  { argv_status := PyStatus.error "cannot decode argv", init_status := PyStatus.ok,
    program_dir := "" }

/-- Runtime replies of a start in which `Py_InitializeFromConfig` fails. -/
def StartReplies.init_failure : StartReplies :=
  { argv_status := PyStatus.ok, init_status := PyStatus.exit 1, program_dir := "" }

/-- A world in which the interpreter is running: a fresh world after one
successful start through the options entry point. -/
def World.running : World :=
  (initialize_interpreter true [] true StartReplies.success World.fresh).2

/-- A world that is not running but carries session-local state: internals
alive, indirections held, and three interpreters seen. -/
def World.stale : World :=
  { World.fresh with
    num_interpreters_seen := 3
    internals_pp_manager := { pp_cached := true, payload_alive := true }
    local_internals_pp_manager := { pp_cached := true, payload_alive := true } }

/-- A call of `initialize_interpreter` through one of its two overloads. -/
inductive StartCall where
  | options (init_signal_handlers : Bool) (argv : List String) (add_program_dir_to_path : Bool)
  | pyconfig (config : PyConfig) (argv : List String) (add_program_dir_to_path : Bool)
deriving DecidableEq, Repr

/-- Run a start call: the outcome and the world it leaves. -/
def StartCall.run : StartCall → StartReplies → World → Outcome × World
  | StartCall.options init_signal_handlers argv add_program_dir_to_path, rt, w =>
    initialize_interpreter init_signal_handlers argv add_program_dir_to_path rt w
  | StartCall.pyconfig config argv add_program_dir_to_path, rt, w =>
    ((initialize_interpreter_config config argv add_program_dir_to_path rt w).1,
      (initialize_interpreter_config config argv add_program_dir_to_path rt w).2.2)

/-- The calls that `finalize_interpreter` makes, in order, for an entry value
`n` of the interpreters-seen counter. -/
def finalize_events (n : Nat) : List Event :=
  if 1 < n then
    [Event.unref Manager.internals, Event.unref Manager.local_internals,
      Event.set_num_interpreters_seen 1,
      Event.get_pp Manager.internals, Event.get_pp Manager.local_internals,
      Event.Py_Finalize,
      Event.destroy Manager.internals, Event.destroy Manager.local_internals,
      Event.set_num_interpreters_seen 0]
  else
    [Event.get_pp Manager.internals, Event.get_pp Manager.local_internals,
      Event.Py_Finalize,
      Event.destroy Manager.internals, Event.destroy Manager.local_internals,
      Event.set_num_interpreters_seen 0]

/-- The number of guards whose destructor will finalize. -/
def valid_guards (guards : List scoped_interpreter) : Nat :=
  guards.countP (fun g => g.is_valid)

/-- Whether no move-construction of the sequence takes as its source a guard
that was already moved from (or that does not exist). -/
def sources_valid : List scoped_interpreter → List Nat → Bool
  | _, [] => true
  | guards, src :: srcs =>
    (match guards[src]? with
      | some other => other.is_valid
      | none => false) && sources_valid (move_construct guards src) srcs

/-! ## The Ownership Cell and the unique-pointer casters -/

/-- The spec's error kinds of the Ownership Cell. -/
inductive ErrorKind where
  | EmptyCell
  | OwnershipConflict
  | InvalidTransition
deriving DecidableEq, Repr

/-- Modelled from the spec: the Ownership Cell `pybindit::memory::smart_holder`
(declared in `classh.h`, which is not among the sources). The spec gives it a
state among empty, exclusive-owned, shared-owned and unowned-reference, a raw
address, a destructor capability when exclusive-owned and a reference-count
block when shared-owned. -/
inductive smart_holder where
  | empty
  | exclusive_owned (address : Nat) (destructor : Nat)
  | shared_owned (address : Nat) (ref_block : Nat)
  | unowned_reference (address : Nat)
deriving DecidableEq, Repr

/-- The spec's four states of an Ownership Cell. -/
inductive CellState where
  | empty
  | exclusive_owned
  | shared_owned
  | unowned_reference
deriving DecidableEq, Repr

/-- The state of a Cell. -/
def smart_holder.state : smart_holder → CellState
  | smart_holder.empty => CellState.empty
  | smart_holder.exclusive_owned _ _ => CellState.exclusive_owned
  | smart_holder.shared_owned _ _ => CellState.shared_owned
  | smart_holder.unowned_reference _ => CellState.unowned_reference

/-- An exclusive owner `std::unique_ptr<mpty>`: the address and the destructor. -/
structure unique_ptr where
  address : Nat
  destructor : Nat
deriving DecidableEq, Repr

/-- Modelled from the spec: `smart_holder::as_unique_ptr<T>()`, the spec's
`as_exclusive_owner<T>()`: valid only if the state is exclusive-owned;
extracting moves ownership out, leaving the Cell empty; fails with
`OwnershipConflict` otherwise. Returns the result and the Cell afterwards. -/
def smart_holder.as_unique_ptr : smart_holder → Except ErrorKind unique_ptr × smart_holder
  | smart_holder.exclusive_owned address destructor =>
    (Except.ok { address := address, destructor := destructor }, smart_holder.empty)
  | cell => (Except.error ErrorKind.OwnershipConflict, cell)

/-- The base `smart_holder_type_caster_load<T>` of the casters: its only member
is `smhldr_ptr`, a pointer to the Cell of the loaded source (`none` is
`nullptr`). A pointer is an index into the memory of Cells. -/
structure smart_holder_type_caster_load where
  smhldr_ptr : Option Nat := none
deriving DecidableEq, Repr

/-- The call `smhldr_ptr->as_unique_ptr<mpty>()` on a memory of Cells. The
result is `none` where C++ leaves the behaviour undefined (a null or dangling
`smhldr_ptr`). -/
def smhldr_ptr_as_unique_ptr (self : smart_holder_type_caster_load) (cells : List smart_holder) :
    Option (Except ErrorKind unique_ptr × List smart_holder) :=
  match self.smhldr_ptr with
  | none => none
  | some ptr =>
    match cells[ptr]? with
    | none => none
    | some cell =>
      let (result, cell) := cell.as_unique_ptr
      some (result, cells.set ptr cell)

/-- The conversion `operator std::unique_ptr<mpty>()` of
`type_caster<std::unique_ptr<mpty>>`. -/
def type_caster_unique_ptr_mpty (self : smart_holder_type_caster_load)
    (cells : List smart_holder) : Option (Except ErrorKind unique_ptr × List smart_holder) :=
  smhldr_ptr_as_unique_ptr self cells

/-- The conversion `operator std::unique_ptr<mpty const>()` of
`type_caster<std::unique_ptr<mpty const>>`. -/
def type_caster_unique_ptr_mpty_const (self : smart_holder_type_caster_load)
    (cells : List smart_holder) : Option (Except ErrorKind unique_ptr × List smart_holder) :=
  smhldr_ptr_as_unique_ptr self cells

/-! ## Loading a caster from a source object -/

/-- Modelled from the spec: the Instance Record, the C++ `instance` (declared
in the pybind11 core, which is not among the sources): the exposed type's
identity, one Ownership Cell per native base or derived layer of the type's
layout (a slot names the layer's type identity and points to its Cell), and
the flag marking a record that the bridge allocated. -/
structure instance_record where
  type : Nat
  slots : List (Nat × Nat)
  owned : Bool
deriving DecidableEq, Repr

/-- The object a `handle` refers to: an Instance Record, or an object of a type
that the bridge did not expose. -/
inductive handle where
  | record (inst : instance_record)
  | foreign (type : Nat)
deriving DecidableEq, Repr

/-- The C++ `value_and_holder`: one slot of an Instance Record. `holder` is the
address of the slot's Cell. -/
structure value_and_holder where
  type : Nat
  holder : Nat
deriving DecidableEq, Repr

/-- Modelled from the spec: `isinstance<T>(src)`, for a type identity `T`: the
source is an Instance Record whose layout has a layer of type `T`. -/
def isinstance (T : Nat) : handle → Bool
  | handle.record inst => inst.slots.any (fun slot => slot.1 == T)
  | handle.foreign _ => false

/-- Modelled from the spec: `instance::get_value_and_holder(find_type)`, the
first slot of the layer `find_type`; `none` when the record has no such layer
(the C++ call then does not return). -/
def instance_record.get_value_and_holder (inst : instance_record) (find_type : Nat) :
    Option value_and_holder :=
  (inst.slots.find? (fun slot => slot.1 == find_type)).map
    (fun slot => { type := slot.1, holder := slot.2 })

/-- The member `smart_holder_type_caster_load<T>::load(handle src, bool
convert)`. Returns what the call returns (`none` where it does not return: the
cast of a source that is no Instance Record, or a missing slot), the caster
afterwards and the memory of Cells afterwards. -/
def smart_holder_type_caster_load.load (T : Nat) (self : smart_holder_type_caster_load)
    (src : handle) (_convert : Bool) (cells : List smart_holder) :
    Option Bool × smart_holder_type_caster_load × List smart_holder :=
  if !isinstance T src then
    (some false, self, cells)
  else
    match src with
    | handle.record inst =>
      match inst.get_value_and_holder T with
      | some v_h => (some true, { self with smhldr_ptr := some v_h.holder }, cells)
      | none => (none, self, cells)
    | handle.foreign _ => (none, self, cells)

/-- The address of the Cell of the source's slot for `T`, when there is one. -/
def slot_cell (T : Nat) : handle → Option Nat
  | handle.record inst => (inst.slots.find? (fun slot => slot.1 == T)).map (fun slot => slot.2)
  | handle.foreign _ => none

/-! ## The public lifecycle -/

/-- The states of the public lifecycle: from any state that is not running with
counter 0, by successful calls of either overload of `initialize_interpreter`
(the two `scoped_interpreter` constructors are such calls) and by calls of
`finalize_interpreter`. -/
inductive Lifecycle : World → Prop where
  | start (w : World) (hrun : w.py_initialized = false) (hnum : w.num_interpreters_seen = 0) :
      Lifecycle w
  | started (w : World) (init_signal_handlers : Bool) (argv : List String)
      (add_program_dir_to_path : Bool) (rt : StartReplies) (h : Lifecycle w)
      (hok : (initialize_interpreter init_signal_handlers argv add_program_dir_to_path
        rt w).1 = Outcome.returned) :
      Lifecycle (initialize_interpreter init_signal_handlers argv add_program_dir_to_path rt w).2
  | started_config (w : World) (config : PyConfig) (argv : List String)
      (add_program_dir_to_path : Bool) (rt : StartReplies) (h : Lifecycle w)
      (hok : (initialize_interpreter_config config argv add_program_dir_to_path
        rt w).1 = Outcome.returned) :
      Lifecycle (initialize_interpreter_config config argv add_program_dir_to_path rt w).2.2
  | finalized (w : World) (fin : FinalizeReplies) (h : Lifecycle w) :
      Lifecycle (finalize_interpreter fin w)

/-- The lifecycle states reached through the options overload only. -/
inductive OptionsLifecycle : World → Prop where
  | start (w : World) (hrun : w.py_initialized = false) (hnum : w.num_interpreters_seen = 0) :
      OptionsLifecycle w
  | started (w : World) (init_signal_handlers : Bool) (argv : List String)
      (add_program_dir_to_path : Bool) (rt : StartReplies) (h : OptionsLifecycle w)
      (hok : (initialize_interpreter init_signal_handlers argv add_program_dir_to_path
        rt w).1 = Outcome.returned) :
      OptionsLifecycle
        (initialize_interpreter init_signal_handlers argv add_program_dir_to_path rt w).2
  | finalized (w : World) (fin : FinalizeReplies) (h : OptionsLifecycle w) :
      OptionsLifecycle (finalize_interpreter fin w)

/-- The counter tracks the running state: 1 while running, 0 while not. -/
def counter_tracks_running (w : World) : Prop :=
  w.num_interpreters_seen = if w.py_initialized then 1 else 0

/-- The world after one successful start of the fresh world through the
`PyConfig` overload. -/
def World.running_config : World :=
  (initialize_interpreter_config PyConfig_InitPythonConfig [] true StartReplies.success
    World.fresh).2.2

/-! ## Theorems -/

theorem precheck_of_running (w : World) (h : w.py_initialized = true) :
    precheck_interpreter w = AlreadyRunning := by
  simp [precheck_interpreter, Py_IsInitialized, h, AlreadyRunning]

theorem precheck_of_not_running (w : World) (h : w.py_initialized = false) :
    precheck_interpreter w = Outcome.returned := by
  simp [precheck_interpreter, Py_IsInitialized, h]

theorem initialize_config_of_running (w : World) (h : w.py_initialized = true)
    (config : PyConfig) (argv : List String) (add_program_dir_to_path : Bool)
    (rt : StartReplies) :
    initialize_interpreter_config config argv add_program_dir_to_path rt w
      = (AlreadyRunning, config, w) := by
  simp [initialize_interpreter_config, precheck_of_running w h, AlreadyRunning, pybind11_fail]

/-- C1: in every state in which the interpreter is already running, both
overloads of `initialize_interpreter` and both `scoped_interpreter`
constructors end with the failure "The interpreter is already running", and
the world they leave is the world they found: no call into the runtime is
logged, the runtime is not started again, `sys.path` and the interpreters-seen
counter are as before, the caller-supplied config comes back unchanged, and no
guard object exists. (The options overload fills its local `PyConfig` before
the check; that touches nothing outside the function.) -/
theorem initialize_interpreter_already_running (w : World) (h : w.py_initialized = true) :
    (∀ (init_signal_handlers : Bool) (argv : List String) (add_program_dir_to_path : Bool)
        (rt : StartReplies),
        initialize_interpreter init_signal_handlers argv add_program_dir_to_path rt w
          = (AlreadyRunning, w)) ∧
    (∀ (config : PyConfig) (argv : List String) (add_program_dir_to_path : Bool)
        (rt : StartReplies),
        initialize_interpreter_config config argv add_program_dir_to_path rt w
          = (AlreadyRunning, config, w)) ∧
    (∀ (init_signal_handlers : Bool) (argv : List String) (add_program_dir_to_path : Bool)
        (rt : StartReplies),
        scoped_interpreter.ctor init_signal_handlers argv add_program_dir_to_path rt w
          = (AlreadyRunning, none, w)) ∧
    (∀ (config : PyConfig) (argv : List String) (add_program_dir_to_path : Bool)
        (rt : StartReplies),
        scoped_interpreter.ctor_config config argv add_program_dir_to_path rt w
          = (AlreadyRunning, none, config, w)) := by
  refine ⟨?_, ?_, ?_, ?_⟩
  · intro a b c rt
    simp [initialize_interpreter, initialize_config_of_running w h, AlreadyRunning, pybind11_fail]
  · intro config b c rt
    exact initialize_config_of_running w h config b c rt
  · intro a b c rt
    simp [scoped_interpreter.ctor, initialize_interpreter, initialize_config_of_running w h,
      AlreadyRunning, pybind11_fail]
  · intro config b c rt
    simp [scoped_interpreter.ctor_config, initialize_config_of_running w h, AlreadyRunning,
      pybind11_fail]

/-- Witness of C1 at the running world reached by one successful start. -/
theorem initialize_interpreter_already_running_witness :
    World.running.py_initialized = true ∧
    (∀ (init_signal_handlers : Bool) (argv : List String) (add_program_dir_to_path : Bool)
        (rt : StartReplies),
        initialize_interpreter init_signal_handlers argv add_program_dir_to_path rt World.running
          = (AlreadyRunning, World.running)) :=
  ⟨by decide, (initialize_interpreter_already_running World.running (by decide)).1⟩

/-- C2: registering an embedded module fails with `TooLate` exactly when the
runtime is already initialized, and then the world (the module table and the
trace) is untouched: `PyImport_AppendInittab` is not even called. Otherwise
`PyImport_AppendInittab(name, init)` is called, once; the registration fails
with `InsufficientResources` exactly when that call reports -1, and otherwise
returns with `(name, init)` at the end of the module table. -/
theorem embedded_module_registration (can_extend : Bool) (name : String) (init : Nat)
    (w : World) :
    ((embedded_module can_extend name init w).1 = TooLate ↔ w.py_initialized = true) ∧
    (if w.py_initialized = true then
      (embedded_module can_extend name init w).2 = w
    else
      (embedded_module can_extend name init w).2.trace
          = w.trace ++ [Event.PyImport_AppendInittab name init] ∧
      ((embedded_module can_extend name init w).1 = InsufficientResources
          ↔ (PyImport_AppendInittab can_extend name init w).1 = -1) ∧
      (((embedded_module can_extend name init w).1 = InsufficientResources ∧
          (embedded_module can_extend name init w).2.inittab = w.inittab) ∨
        ((embedded_module can_extend name init w).1 = Outcome.returned ∧
          (embedded_module can_extend name init w).2.inittab = w.inittab ++ [(name, init)]))) := by
  cases hrun : w.py_initialized <;> cases can_extend <;>
    simp [embedded_module, PyImport_AppendInittab, Py_IsInitialized, hrun, TooLate,
      InsufficientResources, pybind11_fail, World.log]

/-! ### Facts about `finalize_interpreter` -/

theorem finalize_trace (fin : FinalizeReplies) (w : World) :
    (finalize_interpreter fin w).trace = w.trace ++ finalize_events w.num_interpreters_seen := by
  unfold finalize_interpreter finalize_events
  by_cases h : 1 < w.num_interpreters_seen
  · simp [h, unref, get_pp, destroy, Py_Finalize, set_num_interpreters_seen, World.log,
      World.set_manager, World.manager]
  · simp [h, unref, get_pp, destroy, Py_Finalize, set_num_interpreters_seen, World.log,
      World.set_manager, World.manager]

theorem finalize_state (fin : FinalizeReplies) (w : World) :
    (finalize_interpreter fin w).py_initialized = false ∧
    (finalize_interpreter fin w).num_interpreters_seen = 0 ∧
    (finalize_interpreter fin w).internals_pp_manager
      = { pp_cached := false, payload_alive := false } ∧
    (finalize_interpreter fin w).local_internals_pp_manager
      = { pp_cached := false, payload_alive := false } := by
  unfold finalize_interpreter
  by_cases h : 1 < w.num_interpreters_seen
  · simp [h, unref, get_pp, destroy, Py_Finalize, set_num_interpreters_seen, World.log,
      World.set_manager, World.manager]
  · simp [h, unref, get_pp, destroy, Py_Finalize, set_num_interpreters_seen, World.log,
      World.set_manager, World.manager]

theorem finalize_calls_finalize (fin : FinalizeReplies) (w : World) :
    finalize_calls (finalize_interpreter fin w) = finalize_calls w + 1 := by
  unfold finalize_calls
  rw [finalize_trace, List.count_append]
  have hcount : List.count Event.Py_Finalize (finalize_events w.num_interpreters_seen) = 1 := by
    unfold finalize_events
    split <;> decide
  rw [hcount]

/-! ### Facts about a start that the runtime accepts -/

theorem initialize_config_ok (w : World) (h : w.py_initialized = false) (config : PyConfig)
    (argv : List String) (add_program_dir_to_path : Bool) (rt : StartReplies)
    (hargv : rt.argv_status = PyStatus.ok) (hinit : rt.init_status = PyStatus.ok) :
    (initialize_interpreter_config config argv add_program_dir_to_path rt w).1
      = Outcome.returned ∧
    (initialize_interpreter_config config argv add_program_dir_to_path rt w).2.2.py_initialized
      = true ∧
    (initialize_interpreter_config config argv add_program_dir_to_path rt w).2.2.handed_config
      = some { config with argv := argv } ∧
    (initialize_interpreter_config config argv add_program_dir_to_path rt w).2.2.num_interpreters_seen
      = w.num_interpreters_seen ∧
    (initialize_interpreter_config config argv add_program_dir_to_path rt w).2.2.internals_pp_manager
      = w.internals_pp_manager ∧
    (initialize_interpreter_config config argv add_program_dir_to_path
        rt w).2.2.local_internals_pp_manager
      = w.local_internals_pp_manager := by
  cases add_program_dir_to_path <;>
    simp [initialize_interpreter_config, precheck_of_not_running w h, PyConfig_SetBytesArgv,
      Py_InitializeFromConfig, PyConfig_Clear, PyRun_SimpleString, PyStatus_Exception, hargv,
      hinit, World.log]

theorem initialize_ok (w : World) (h : w.py_initialized = false) (init_signal_handlers : Bool)
    (argv : List String) (add_program_dir_to_path : Bool) (rt : StartReplies)
    (hargv : rt.argv_status = PyStatus.ok) (hinit : rt.init_status = PyStatus.ok) :
    (initialize_interpreter init_signal_handlers argv add_program_dir_to_path rt w).1
      = Outcome.returned ∧
    (initialize_interpreter init_signal_handlers argv add_program_dir_to_path rt w).2.py_initialized
      = true ∧
    (initialize_interpreter init_signal_handlers argv add_program_dir_to_path rt w).2.handed_config
      = some { parse_argv := 0,
               install_signal_handlers := if init_signal_handlers then 1 else 0,
               argv := argv } ∧
    (initialize_interpreter init_signal_handlers argv add_program_dir_to_path
        rt w).2.num_interpreters_seen = 1 ∧
    (initialize_interpreter init_signal_handlers argv add_program_dir_to_path
        rt w).2.internals_pp_manager = w.internals_pp_manager ∧
    (initialize_interpreter init_signal_handlers argv add_program_dir_to_path
        rt w).2.local_internals_pp_manager = w.local_internals_pp_manager := by
  cases add_program_dir_to_path <;>
    simp [initialize_interpreter, initialize_interpreter_config, precheck_of_not_running w h,
      PyConfig_SetBytesArgv, Py_InitializeFromConfig, PyConfig_Clear, PyRun_SimpleString,
      PyStatus_Exception, hargv, hinit, World.log, set_num_interpreters_seen,
      PyConfig_InitPythonConfig]

theorem start_call_ok (call : StartCall) (w : World) (h : w.py_initialized = false)
    (rt : StartReplies) (hargv : rt.argv_status = PyStatus.ok)
    (hinit : rt.init_status = PyStatus.ok) :
    (call.run rt w).1 = Outcome.returned ∧
    (call.run rt w).2.py_initialized = true ∧
    (call.run rt w).2.internals_pp_manager = w.internals_pp_manager ∧
    (call.run rt w).2.local_internals_pp_manager = w.local_internals_pp_manager := by
  cases call with
  | options a b c =>
    have hok := initialize_ok w h a b c rt hargv hinit
    simp only [StartCall.run]
    exact ⟨hok.1, hok.2.1, hok.2.2.2.2.1, hok.2.2.2.2.2⟩
  | pyconfig cfg b c =>
    have hok := initialize_config_ok w h cfg b c rt hargv hinit
    simp only [StartCall.run]
    exact ⟨hok.1, hok.2.1, hok.2.2.2.2.1, hok.2.2.2.2.2⟩

/-- C3: from any state in which the interpreter is not running, and with a
runtime that reports success for its own start-up calls, the sequence
`initialize_interpreter`, `finalize_interpreter`, `initialize_interpreter`
(each start through either overload) returns normally at every step. In the
state after `finalize_interpreter` the interpreter is not running, the
internals and the local internals are destroyed and their indirections
dropped, and the interpreters-seen counter is 0; the second start leaves the
internals and local internals destroyed, so nothing session-local of the first
session is left in the second. -/
theorem restart_after_finalize (w : World) (h : w.py_initialized = false)
    (first second : StartCall) (rt1 rt2 : StartReplies) (fin : FinalizeReplies)
    (hargv1 : rt1.argv_status = PyStatus.ok) (hinit1 : rt1.init_status = PyStatus.ok)
    (hargv2 : rt2.argv_status = PyStatus.ok) (hinit2 : rt2.init_status = PyStatus.ok) :
    (first.run rt1 w).1 = Outcome.returned ∧
    (first.run rt1 w).2.py_initialized = true ∧
    (finalize_interpreter fin (first.run rt1 w).2).py_initialized = false ∧
    (finalize_interpreter fin (first.run rt1 w).2).internals_pp_manager
      = { pp_cached := false, payload_alive := false } ∧
    (finalize_interpreter fin (first.run rt1 w).2).local_internals_pp_manager
      = { pp_cached := false, payload_alive := false } ∧
    (finalize_interpreter fin (first.run rt1 w).2).num_interpreters_seen = 0 ∧
    (second.run rt2 (finalize_interpreter fin (first.run rt1 w).2)).1 = Outcome.returned ∧
    (second.run rt2 (finalize_interpreter fin (first.run rt1 w).2)).2.py_initialized = true ∧
    (second.run rt2 (finalize_interpreter fin (first.run rt1 w).2)).2.internals_pp_manager
      = { pp_cached := false, payload_alive := false } ∧
    (second.run rt2 (finalize_interpreter fin (first.run rt1 w).2)).2.local_internals_pp_manager
      = { pp_cached := false, payload_alive := false } := by
  have h1 := start_call_ok first w h rt1 hargv1 hinit1
  have hf := finalize_state fin (first.run rt1 w).2
  have h2 := start_call_ok second (finalize_interpreter fin (first.run rt1 w).2) hf.1 rt2
    hargv2 hinit2
  refine ⟨h1.1, h1.2.1, hf.1, hf.2.2.1, hf.2.2.2, hf.2.1, h2.1, h2.2.1, ?_, ?_⟩
  · rw [h2.2.2.1, hf.2.2.1]
  · rw [h2.2.2.2, hf.2.2.2]

/-- Witness of C3: a restart from the stale world, first through the options
overload and then through the `PyConfig` overload. -/
theorem restart_after_finalize_witness :
    World.stale.py_initialized = false ∧
    (finalize_interpreter FinalizeReplies.quiet
        ((StartCall.options true ["prog"] true).run StartReplies.success
          World.stale).2).num_interpreters_seen = 0 ∧
    ((StartCall.pyconfig PyConfig_InitPythonConfig [] false).run StartReplies.success
        (finalize_interpreter FinalizeReplies.quiet
          ((StartCall.options true ["prog"] true).run StartReplies.success World.stale).2)).1
      = Outcome.returned :=
  have hw := restart_after_finalize World.stale (by decide)
    (StartCall.options true ["prog"] true) (StartCall.pyconfig PyConfig_InitPythonConfig [] false)
    StartReplies.success StartReplies.success FinalizeReplies.quiet
    (by decide) (by decide) (by decide) (by decide)
  ⟨by decide, hw.2.2.2.2.2.1, hw.2.2.2.2.2.2.1⟩

theorem initialize_returned_running (init_signal_handlers : Bool) (argv : List String)
    (add_program_dir_to_path : Bool) (rt : StartReplies) (w : World)
    (h : (initialize_interpreter init_signal_handlers argv add_program_dir_to_path rt w).1
      = Outcome.returned) :
    (initialize_interpreter init_signal_handlers argv add_program_dir_to_path
      rt w).2.py_initialized = true := by
  cases hrun : w.py_initialized
  · cases hargv : rt.argv_status
    · cases hinit : rt.init_status
      · exact (initialize_ok w hrun _ _ _ rt hargv hinit).2.1
      all_goals
        simp [initialize_interpreter, initialize_interpreter_config,
          precheck_of_not_running w hrun, PyConfig_SetBytesArgv, Py_InitializeFromConfig,
          PyConfig_Clear, PyStatus_Exception, hargv, hinit] at h
    all_goals
      simp [initialize_interpreter, initialize_interpreter_config,
        precheck_of_not_running w hrun, PyConfig_SetBytesArgv, PyConfig_Clear,
        PyStatus_Exception, hargv] at h
  · simp [initialize_interpreter, initialize_config_of_running w hrun, AlreadyRunning,
      pybind11_fail] at h

theorem initialize_config_returned_running (config : PyConfig) (argv : List String)
    (add_program_dir_to_path : Bool) (rt : StartReplies) (w : World)
    (h : (initialize_interpreter_config config argv add_program_dir_to_path rt w).1
      = Outcome.returned) :
    (initialize_interpreter_config config argv add_program_dir_to_path
      rt w).2.2.py_initialized = true := by
  cases hrun : w.py_initialized
  · cases hargv : rt.argv_status
    · cases hinit : rt.init_status
      · exact (initialize_config_ok w hrun _ _ _ rt hargv hinit).2.1
      all_goals
        simp [initialize_interpreter_config, precheck_of_not_running w hrun,
          PyConfig_SetBytesArgv, Py_InitializeFromConfig, PyConfig_Clear, PyStatus_Exception,
          hargv, hinit] at h
    all_goals
      simp [initialize_interpreter_config, precheck_of_not_running w hrun,
        PyConfig_SetBytesArgv, PyConfig_Clear, PyStatus_Exception, hargv] at h
  · simp [initialize_config_of_running w hrun, AlreadyRunning, pybind11_fail] at h

/-- C5: constructing a `scoped_interpreter`, through either constructor, is a
call of `initialize_interpreter` (same outcome, same world), and when it
returns the interpreter is running and the guard is valid; when it throws no
guard exists. The destructor of a freshly constructed guard calls
`finalize_interpreter`. After one move-construction the destructor of the
moved-from guard leaves the world as it is (no finalization) and the
destructor of the moved-to guard calls `finalize_interpreter`. -/
theorem scoped_interpreter_finalizes_unless_moved (init_signal_handlers : Bool)
    (argv : List String) (add_program_dir_to_path : Bool) (rt : StartReplies)
    (fin : FinalizeReplies) (w w' : World) :
    ((scoped_interpreter.ctor init_signal_handlers argv add_program_dir_to_path rt w).1,
      (scoped_interpreter.ctor init_signal_handlers argv add_program_dir_to_path rt w).2.2)
      = initialize_interpreter init_signal_handlers argv add_program_dir_to_path rt w ∧
    (((scoped_interpreter.ctor init_signal_handlers argv add_program_dir_to_path rt w).1
          = Outcome.returned ∧
        (scoped_interpreter.ctor init_signal_handlers argv add_program_dir_to_path rt w).2.1
          = some { is_valid := true } ∧
        (scoped_interpreter.ctor init_signal_handlers argv add_program_dir_to_path
          rt w).2.2.py_initialized = true) ∨
      ((scoped_interpreter.ctor init_signal_handlers argv add_program_dir_to_path rt w).1
          ≠ Outcome.returned ∧
        (scoped_interpreter.ctor init_signal_handlers argv add_program_dir_to_path rt w).2.1
          = none)) ∧
    (∀ (config : PyConfig),
      ((scoped_interpreter.ctor_config config argv add_program_dir_to_path rt w).1,
        (scoped_interpreter.ctor_config config argv add_program_dir_to_path rt w).2.2)
        = initialize_interpreter_config config argv add_program_dir_to_path rt w ∧
      (((scoped_interpreter.ctor_config config argv add_program_dir_to_path rt w).1
            = Outcome.returned ∧
          (scoped_interpreter.ctor_config config argv add_program_dir_to_path rt w).2.1
            = some { is_valid := true } ∧
          (scoped_interpreter.ctor_config config argv add_program_dir_to_path
            rt w).2.2.2.py_initialized = true) ∨
        ((scoped_interpreter.ctor_config config argv add_program_dir_to_path rt w).1
            ≠ Outcome.returned ∧
          (scoped_interpreter.ctor_config config argv add_program_dir_to_path rt w).2.1
            = none))) ∧
    (scoped_interpreter.dtor { is_valid := true } fin w' = finalize_interpreter fin w' ∧
      finalize_calls (scoped_interpreter.dtor { is_valid := true } fin w')
        = finalize_calls w' + 1) ∧
    (scoped_interpreter.dtor (scoped_interpreter.move_ctor { is_valid := true }).2 fin w' = w' ∧
      scoped_interpreter.dtor (scoped_interpreter.move_ctor { is_valid := true }).1 fin w'
        = finalize_interpreter fin w' ∧
      finalize_calls
          (scoped_interpreter.dtor (scoped_interpreter.move_ctor { is_valid := true }).1 fin w')
        = finalize_calls w' + 1) := by
  refine ⟨?_, ?_, ?_, ⟨?_, ?_⟩, ?_, ?_, ?_⟩
  · unfold scoped_interpreter.ctor
    split <;> simp_all
  · have hrun := initialize_returned_running init_signal_handlers argv add_program_dir_to_path
      rt w
    unfold scoped_interpreter.ctor
    split
    · rename_i w1 heq
      left
      rw [heq] at hrun
      exact ⟨rfl, rfl, hrun rfl⟩
    · rename_i failure w1 hne heq
      right
      refine ⟨?_, rfl⟩
      intro hret
      exact hne hret
  · intro config
    have hrun := initialize_config_returned_running config argv add_program_dir_to_path rt w
    unfold scoped_interpreter.ctor_config
    split
    · rename_i config1 w1 heq
      rw [heq] at hrun
      exact ⟨by rw [heq], Or.inl ⟨rfl, rfl, hrun rfl⟩⟩
    · rename_i failure config1 w1 hne heq
      refine ⟨by rw [heq], Or.inr ⟨?_, rfl⟩⟩
      intro hret
      exact hne hret
  · simp [scoped_interpreter.dtor]
  · simp [scoped_interpreter.dtor, finalize_calls_finalize]
  · simp [scoped_interpreter.dtor, scoped_interpreter.move_ctor]
  · simp [scoped_interpreter.dtor, scoped_interpreter.move_ctor]
  · simp [scoped_interpreter.dtor, scoped_interpreter.move_ctor, finalize_calls_finalize]

/-- C6: `finalize_interpreter` makes exactly the calls of `finalize_events`, in
that order. With an entry counter above 1 it first drops (unrefs) the
internals and the local-internals indirections and lowers the counter to 1,
all before `Py_Finalize`; with an entry counter of 0 or 1 it drops nothing
before `Py_Finalize`. In every case both are destroyed after `Py_Finalize`,
and the state it leaves has them destroyed, the runtime down and the counter
at 0. -/
theorem finalize_interpreter_order (fin : FinalizeReplies) (w : World) :
    (finalize_interpreter fin w).trace
      = w.trace ++
        (if 1 < w.num_interpreters_seen then
          [Event.unref Manager.internals, Event.unref Manager.local_internals,
            Event.set_num_interpreters_seen 1,
            Event.get_pp Manager.internals, Event.get_pp Manager.local_internals,
            Event.Py_Finalize,
            Event.destroy Manager.internals, Event.destroy Manager.local_internals,
            Event.set_num_interpreters_seen 0]
        else
          [Event.get_pp Manager.internals, Event.get_pp Manager.local_internals,
            Event.Py_Finalize,
            Event.destroy Manager.internals, Event.destroy Manager.local_internals,
            Event.set_num_interpreters_seen 0]) ∧
    (finalize_interpreter fin w).py_initialized = false ∧
    (finalize_interpreter fin w).num_interpreters_seen = 0 ∧
    (finalize_interpreter fin w).internals_pp_manager
      = { pp_cached := false, payload_alive := false } ∧
    (finalize_interpreter fin w).local_internals_pp_manager
      = { pp_cached := false, payload_alive := false } :=
  ⟨finalize_trace fin w, finalize_state fin w⟩

/-! ### Guards and the number of finalizations -/

theorem dtor_calls (g : scoped_interpreter) (fin : FinalizeReplies) (w : World) :
    finalize_calls (g.dtor fin w) = finalize_calls w + (if g.is_valid then 1 else 0) := by
  cases hg : g.is_valid <;> simp [scoped_interpreter.dtor, hg, finalize_calls_finalize]

theorem foldl_dtor_calls (fin : FinalizeReplies) (guards : List scoped_interpreter) (w : World) :
    finalize_calls (guards.foldl (fun w g => g.dtor fin w) w)
      = finalize_calls w + valid_guards guards := by
  induction guards generalizing w with
  | nil => simp [valid_guards]
  | cons g gs ih =>
    rw [List.foldl_cons, ih, dtor_calls]
    unfold valid_guards
    rw [List.countP_cons]
    cases g.is_valid
    · simp
    · simp
      omega

theorem destroy_all_calls (fin : FinalizeReplies) (guards : List scoped_interpreter) (w : World) :
    finalize_calls (destroy_all fin guards w) = finalize_calls w + valid_guards guards := by
  unfold destroy_all
  rw [foldl_dtor_calls]
  simp [valid_guards]

theorem valid_guards_set (guards : List scoped_interpreter) (src : Nat)
    (other : scoped_interpreter) (h : guards[src]? = some other) :
    valid_guards (guards.set src { other with is_valid := false })
        + (if other.is_valid then 1 else 0)
      = valid_guards guards := by
  induction guards generalizing src with
  | nil => simp at h
  | cons g gs ih =>
    cases src with
    | zero =>
      simp at h
      subst h
      cases hg : g.is_valid <;> simp [valid_guards, List.countP_cons, hg]
    | succ n =>
      simp at h
      have hn := ih n h
      simp only [valid_guards, List.set_cons_succ, List.countP_cons] at hn ⊢
      omega

theorem move_construct_valid_guards (guards : List scoped_interpreter) (src : Nat)
    (other : scoped_interpreter) (h : guards[src]? = some other) :
    valid_guards (move_construct guards src) + (if other.is_valid then 1 else 0)
      = valid_guards guards + 1 := by
  have hset := valid_guards_set guards src other h
  simp only [move_construct, h, scoped_interpreter.move_ctor]
  simp only [valid_guards, List.countP_append] at hset ⊢
  simp
  omega

/-- As long as no guard is moved from twice, the number of valid guards stays
what it was. -/
theorem move_constructions_valid_guards (guards : List scoped_interpreter) (srcs : List Nat)
    (h : sources_valid guards srcs = true) :
    valid_guards (move_constructions guards srcs) = valid_guards guards := by
  induction srcs generalizing guards with
  | nil => rfl
  | cons src srcs ih =>
    simp only [sources_valid, Bool.and_eq_true] at h
    cases hsrc : guards[src]? with
    | none => simp [hsrc] at h
    | some other =>
      have hvalid : other.is_valid = true := by simpa [hsrc] using h.1
      have hstep := move_construct_valid_guards guards src other hsrc
      simp only [hvalid, if_true] at hstep
      simp only [move_constructions, List.foldl_cons]
      have hrest := ih (move_construct guards src) h.2
      simp only [move_constructions] at hrest
      omega

/-- What the guard does guarantee: after any sequence of move-constructions in
which no guard is moved from twice, destroying all guards derived from one
constructed guard finalizes exactly once. -/
theorem single_finalize_without_double_move (srcs : List Nat) (fin : FinalizeReplies)
    (w : World) (h : sources_valid [{ is_valid := true }] srcs = true) :
    finalize_calls (destroy_all fin (move_constructions [{ is_valid := true }] srcs) w)
      = finalize_calls w + 1 := by
  rw [destroy_all_calls, move_constructions_valid_guards _ _ h]
  rfl

/-- C4 (the code at the failing input): a guard is constructed once, a second
guard is move-constructed from it, and a third guard is move-constructed from
the first one again, which was already moved from. Two of the three guards are
then valid, and destroying all three tears the runtime down twice. -/
theorem scoped_interpreter_double_move_finalizes_twice :
    scoped_interpreter.ctor true [] true StartReplies.success World.fresh
      = (Outcome.returned, some { is_valid := true }, World.running) ∧
    move_constructions [{ is_valid := true }] [0, 0]
      = [{ is_valid := false }, { is_valid := true }, { is_valid := true }] ∧
    finalize_calls
        (destroy_all FinalizeReplies.quiet (move_constructions [{ is_valid := true }] [0, 0])
          World.running)
      = finalize_calls World.running + 2 := by
  refine ⟨by decide, by decide, by decide⟩

theorem initialize_config_never_terminates (config : PyConfig) (argv : List String)
    (add_program_dir_to_path : Bool) (rt : StartReplies) (w : World) :
    (initialize_interpreter_config config argv add_program_dir_to_path rt w).1
      ≠ Outcome.terminated := by
  cases hrun : w.py_initialized
  · cases hargv : rt.argv_status <;> cases hinit : rt.init_status <;>
      simp [initialize_interpreter_config, precheck_of_not_running w hrun,
        PyConfig_SetBytesArgv, Py_InitializeFromConfig, PyConfig_Clear, PyStatus_Exception,
        hargv, hinit]
  · simp [initialize_config_of_running w hrun, AlreadyRunning, pybind11_fail]

/-- C7 (the code at the failing inputs): when `PyConfig_SetBytesArgv` or
`Py_InitializeFromConfig` reports a failure, `initialize_interpreter` throws a
`std::runtime_error` to its caller, with the runtime not started; through the
`PyConfig` overload no input at all ends in process termination. The
pre-PyConfig branch, which starts the runtime with `Py_InitializeEx`, does
end in termination when the runtime cannot start. -/
theorem initialize_interpreter_startup_failure_throws :
    initialize_interpreter true [] true StartReplies.argv_failure World.fresh
      = (Outcome.thrown (runtime_error.mk "cannot decode argv"),
          { World.fresh with
            trace := [Event.PyConfig_SetBytesArgv [], Event.PyConfig_Clear] }) ∧
    (initialize_interpreter true [] true StartReplies.init_failure World.fresh).1
      = Outcome.thrown (runtime_error.mk "Failed to init CPython") ∧
    (initialize_interpreter true [] true StartReplies.init_failure World.fresh).2.py_initialized
      = false ∧
    (∀ (config : PyConfig) (argv : List String) (add_program_dir_to_path : Bool)
        (rt : StartReplies) (w : World),
        (initialize_interpreter_config config argv add_program_dir_to_path rt w).1
          ≠ Outcome.terminated) ∧
    (initialize_interpreter_pre_pyconfig true [] true
        { init_ok := false, undecodable := [], program_dir := "" } World.fresh).1
      = Outcome.terminated := by
  refine ⟨by decide, by decide, by decide, initialize_config_never_terminates, by decide⟩

/-- C8 (counterexample): the options entry point hands the runtime a config
whose `parse_argv` is 0, although the caller turned nothing off and the
default that `PyConfig_InitPythonConfig` sets is 1. -/
theorem options_entry_parse_argv_not_on :
    PyConfig_InitPythonConfig.parse_argv = 1 ∧
    (initialize_interpreter true ["prog", "-x"] true StartReplies.success
        World.fresh).2.handed_config
      = some { parse_argv := 0, install_signal_handlers := 1, argv := ["prog", "-x"] } := by
  refine ⟨by decide, by decide⟩

/-- C8 (amended): whenever the options entry point gets as far as starting the
runtime (the interpreter is not running and `PyConfig_SetBytesArgv`
succeeded), the config handed to the runtime has `parse_argv` off (0),
`install_signal_handlers` equal to the `init_signal_handlers` flag, and the
caller's arguments as `argv`. -/
theorem options_entry_handed_config (w : World) (h : w.py_initialized = false)
    (init_signal_handlers : Bool) (argv : List String) (add_program_dir_to_path : Bool)
    (rt : StartReplies) (hargv : rt.argv_status = PyStatus.ok) :
    (initialize_interpreter init_signal_handlers argv add_program_dir_to_path
        rt w).2.handed_config
      = some { parse_argv := 0,
               install_signal_handlers := if init_signal_handlers then 1 else 0,
               argv := argv } := by
  cases hinit : rt.init_status <;> cases add_program_dir_to_path <;>
    simp [initialize_interpreter, initialize_interpreter_config, precheck_of_not_running w h,
      PyConfig_SetBytesArgv, Py_InitializeFromConfig, PyConfig_Clear, PyRun_SimpleString,
      PyStatus_Exception, hargv, hinit, World.log, set_num_interpreters_seen,
      PyConfig_InitPythonConfig]

/-- Witness of C8 (amended): signal handlers off, and a runtime that then fails
to start. -/
theorem options_entry_handed_config_witness :
    World.fresh.py_initialized = false ∧
    StartReplies.init_failure.argv_status = PyStatus.ok ∧
    (initialize_interpreter false ["prog"] true StartReplies.init_failure
        World.fresh).2.handed_config
      = some { parse_argv := 0, install_signal_handlers := 0, argv := ["prog"] } :=
  ⟨by decide, by decide,
    options_entry_handed_config World.fresh (by decide) false ["prog"] true
      StartReplies.init_failure (by decide)⟩

/-! ### The interpreters-seen counter -/

theorem initialize_config_counter (config : PyConfig) (argv : List String)
    (add_program_dir_to_path : Bool) (rt : StartReplies) (w : World) :
    (initialize_interpreter_config config argv add_program_dir_to_path
        rt w).2.2.num_interpreters_seen = w.num_interpreters_seen := by
  cases hrun : w.py_initialized
  · cases hargv : rt.argv_status <;> cases hinit : rt.init_status <;>
      cases add_program_dir_to_path <;>
      simp [initialize_interpreter_config, precheck_of_not_running w hrun,
        PyConfig_SetBytesArgv, Py_InitializeFromConfig, PyConfig_Clear, PyRun_SimpleString,
        PyStatus_Exception, hargv, hinit, World.log]
  · simp [initialize_config_of_running w hrun]

theorem initialize_counter (init_signal_handlers : Bool) (argv : List String)
    (add_program_dir_to_path : Bool) (rt : StartReplies) (w : World) :
    (initialize_interpreter init_signal_handlers argv add_program_dir_to_path
        rt w).2.num_interpreters_seen = 1 ∨
    (initialize_interpreter init_signal_handlers argv add_program_dir_to_path
        rt w).2.num_interpreters_seen = w.num_interpreters_seen := by
  cases hrun : w.py_initialized
  · cases hargv : rt.argv_status <;> cases hinit : rt.init_status <;>
      cases add_program_dir_to_path <;>
      simp [initialize_interpreter, initialize_interpreter_config,
        precheck_of_not_running w hrun, PyConfig_SetBytesArgv, Py_InitializeFromConfig,
        PyConfig_Clear, PyRun_SimpleString, PyStatus_Exception, hargv, hinit, World.log,
        set_num_interpreters_seen]
  · right
    simp [initialize_interpreter, initialize_config_of_running w hrun, AlreadyRunning,
      pybind11_fail]

theorem reachable_counter_le_one (w : World) (h : Reachable w) : w.num_interpreters_seen ≤ 1 := by
  induction h with
  | start w _ hnum => omega
  | init w a b c rt _ ih =>
    rcases initialize_counter a b c rt w with h1 | h1 <;> omega
  | init_config w cfg b c rt _ ih =>
    rw [initialize_config_counter]
    exact ih
  | fini w fin _ _ =>
    rw [(finalize_state fin w).2.1]
    omega

theorem reachable_running : Reachable World.running :=
  Reachable.init World.fresh true [] true StartReplies.success
    (Reachable.start World.fresh rfl rfl)

/-- C9 (counterexample): the running world reached from the fresh world by one
successful `initialize_interpreter` is a lifecycle state with counter 1, and
`finalize_interpreter` takes the counter down to 0. -/
theorem counter_decreases_at_finalize :
    Reachable World.running ∧
    World.running.num_interpreters_seen = 1 ∧
    (finalize_interpreter FinalizeReplies.quiet World.running).num_interpreters_seen = 0 ∧
    ¬ (World.running.num_interpreters_seen
        ≤ (finalize_interpreter FinalizeReplies.quiet World.running).num_interpreters_seen) :=
  ⟨reachable_running, by decide, by decide, by decide⟩

/-- C9 (amended): in every lifecycle state the interpreters-seen counter does
not decrease across `initialize_interpreter`, through either overload and
whether the call succeeds or fails, and `finalize_interpreter` resets it to 0. -/
theorem counter_monotone_across_start (w : World) (h : Reachable w) :
    (∀ (init_signal_handlers : Bool) (argv : List String) (add_program_dir_to_path : Bool)
        (rt : StartReplies),
        w.num_interpreters_seen
          ≤ (initialize_interpreter init_signal_handlers argv add_program_dir_to_path
              rt w).2.num_interpreters_seen) ∧
    (∀ (config : PyConfig) (argv : List String) (add_program_dir_to_path : Bool)
        (rt : StartReplies),
        w.num_interpreters_seen
          ≤ (initialize_interpreter_config config argv add_program_dir_to_path
              rt w).2.2.num_interpreters_seen) ∧
    (∀ (fin : FinalizeReplies), (finalize_interpreter fin w).num_interpreters_seen = 0) := by
  have hle := reachable_counter_le_one w h
  refine ⟨?_, ?_, ?_⟩
  · intro a b c rt
    rcases initialize_counter a b c rt w with h1 | h1 <;> omega
  · intro cfg b c rt
    rw [initialize_config_counter]
  · intro fin
    exact (finalize_state fin w).2.1

/-- Witness of C9 (amended) at the world after one start and one shutdown. -/
theorem counter_monotone_across_start_witness :
    Reachable (finalize_interpreter FinalizeReplies.quiet World.running) ∧
    (finalize_interpreter FinalizeReplies.quiet World.running).num_interpreters_seen
      ≤ (initialize_interpreter true [] true StartReplies.success
          (finalize_interpreter FinalizeReplies.quiet World.running)).2.num_interpreters_seen :=
  ⟨Reachable.fini World.running FinalizeReplies.quiet reachable_running,
    (counter_monotone_across_start
      (finalize_interpreter FinalizeReplies.quiet World.running)
      (Reachable.fini World.running FinalizeReplies.quiet reachable_running)).1
      true [] true StartReplies.success⟩

/-! ### The unique-pointer casters -/

theorem set_of_get (cells : List smart_holder) (ptr : Nat) (cell : smart_holder)
    (h : cells[ptr]? = some cell) : cells.set ptr cell = cells := by
  induction cells generalizing ptr with
  | nil => simp
  | cons c cs ih =>
    cases ptr with
    | zero => simp at h; simp [h]
    | succ n => simp at h; simp [ih n h]

/-- C10: converting a loaded caster to `std::unique_ptr<mpty>` or to
`std::unique_ptr<mpty const>` when the Cell it points to is in the
unowned-reference or the shared-owned state fails with `OwnershipConflict`
and leaves every Cell, the one pointed to included, unchanged; and the
conversion of a loaded caster yields an owner only from an exclusive-owned
Cell. -/
theorem unique_ptr_caster_ownership_conflict (self : smart_holder_type_caster_load)
    (cells : List smart_holder) (ptr : Nat) (cell : smart_holder)
    (hptr : self.smhldr_ptr = some ptr) (hcell : cells[ptr]? = some cell) :
    (cell.state = CellState.unowned_reference ∨ cell.state = CellState.shared_owned →
      type_caster_unique_ptr_mpty self cells
        = some (Except.error ErrorKind.OwnershipConflict, cells) ∧
      type_caster_unique_ptr_mpty_const self cells
        = some (Except.error ErrorKind.OwnershipConflict, cells)) ∧
    ((∃ owner cells', type_caster_unique_ptr_mpty self cells = some (Except.ok owner, cells'))
      ↔ cell.state = CellState.exclusive_owned) ∧
    ((∃ owner cells',
        type_caster_unique_ptr_mpty_const self cells = some (Except.ok owner, cells'))
      ↔ cell.state = CellState.exclusive_owned) := by
  refine ⟨?_, ?_, ?_⟩
  · intro hstate
    cases cell <;>
      simp_all [type_caster_unique_ptr_mpty, type_caster_unique_ptr_mpty_const,
        smhldr_ptr_as_unique_ptr, smart_holder.as_unique_ptr, smart_holder.state, set_of_get]
  · cases cell <;>
      simp [type_caster_unique_ptr_mpty, smhldr_ptr_as_unique_ptr, hptr, hcell,
        smart_holder.as_unique_ptr, smart_holder.state]
  · cases cell <;>
      simp [type_caster_unique_ptr_mpty_const, smhldr_ptr_as_unique_ptr, hptr, hcell,
        smart_holder.as_unique_ptr, smart_holder.state]

/-- Witness of C10: a caster loaded on the second of three Cells, which is
shared-owned. -/
theorem unique_ptr_caster_ownership_conflict_witness :
    type_caster_unique_ptr_mpty { smhldr_ptr := some 1 }
        [smart_holder.exclusive_owned 10 1, smart_holder.shared_owned 20 7,
          smart_holder.unowned_reference 30]
      = some (Except.error ErrorKind.OwnershipConflict,
          [smart_holder.exclusive_owned 10 1, smart_holder.shared_owned 20 7,
            smart_holder.unowned_reference 30]) :=
  ((unique_ptr_caster_ownership_conflict { smhldr_ptr := some 1 }
      [smart_holder.exclusive_owned 10 1, smart_holder.shared_owned 20 7,
        smart_holder.unowned_reference 30] 1 (smart_holder.shared_owned 20 7) rfl rfl).1
    (Or.inr rfl)).1

/-! ### Loading a caster -/

theorem isinstance_slot_cell (T : Nat) (src : handle) :
    isinstance T src = (slot_cell T src).isSome := by
  cases src with
  | foreign t => rfl
  | record inst =>
    simp only [isinstance, slot_cell, Option.isSome_map']
    induction inst.slots with
    | nil => rfl
    | cons slot slots ih =>
      cases hslot : slot.1 == T <;> simp [List.find?_cons, hslot, ih]

theorem get_value_and_holder_slot_cell (T : Nat) (inst : instance_record) :
    (inst.get_value_and_holder T).map (fun v_h => v_h.holder)
      = slot_cell T (handle.record inst) := by
  simp [instance_record.get_value_and_holder, slot_cell, Function.comp_def]

/-- C11: `load` decides on `isinstance<T>(src)` before it writes anything. For
a source that is not an instance of `T` it returns false and the caster is
what it was, so the holder pointer of a fresh caster is still null; for a
source that is an instance of `T` it returns true and the holder pointer is
the address of the Cell of the source's slot for `T`, which exists. The memory
of Cells is never changed, and the `convert` flag changes nothing. -/
theorem load_checks_before_mutation (T : Nat) (self : smart_holder_type_caster_load)
    (src : handle) (convert : Bool) (cells : List smart_holder) :
    smart_holder_type_caster_load.load T self src convert cells
      = (if isinstance T src = true then
          (some true, { self with smhldr_ptr := slot_cell T src }, cells)
        else
          (some false, self, cells)) ∧
    isinstance T src = (slot_cell T src).isSome ∧
    (smart_holder_type_caster_load.load T {} src convert cells).2.1.smhldr_ptr
      = (if isinstance T src = true then slot_cell T src else none) ∧
    (smart_holder_type_caster_load.load T self src convert cells).2.2 = cells ∧
    smart_holder_type_caster_load.load T self src convert cells
      = smart_holder_type_caster_load.load T self src (!convert) cells := by
  have hmain : ∀ (self : smart_holder_type_caster_load) (convert : Bool),
      smart_holder_type_caster_load.load T self src convert cells
        = (if isinstance T src = true then
            (some true, { self with smhldr_ptr := slot_cell T src }, cells)
          else
            (some false, self, cells)) := by
    intro self convert
    cases hinst : isinstance T src
    · simp [smart_holder_type_caster_load.load, hinst]
    · cases src with
      | foreign t => simp [isinstance] at hinst
      | record inst =>
        have hsome := isinstance_slot_cell T (handle.record inst)
        rw [hinst, ← get_value_and_holder_slot_cell] at hsome
        have hcell := get_value_and_holder_slot_cell T inst
        cases hvh : inst.get_value_and_holder T with
        | none => simp [hvh] at hsome
        | some v_h =>
          rw [hvh] at hcell
          simp [smart_holder_type_caster_load.load, hinst, hvh, ← hcell]
  refine ⟨hmain self convert, isinstance_slot_cell T src, ?_, ?_, ?_⟩
  · rw [hmain]
    split <;> rfl
  · rw [hmain]
    split <;> rfl
  · rw [hmain, hmain]

/-! ### The counter across the public lifecycle -/

theorem initialize_returned_counter (init_signal_handlers : Bool) (argv : List String)
    (add_program_dir_to_path : Bool) (rt : StartReplies) (w : World)
    (h : (initialize_interpreter init_signal_handlers argv add_program_dir_to_path rt w).1
      = Outcome.returned) :
    (initialize_interpreter init_signal_handlers argv add_program_dir_to_path
      rt w).2.num_interpreters_seen = 1 := by
  cases hrun : w.py_initialized
  · cases hargv : rt.argv_status
    · cases hinit : rt.init_status
      · exact (initialize_ok w hrun _ _ _ rt hargv hinit).2.2.2.1
      all_goals
        simp [initialize_interpreter, initialize_interpreter_config,
          precheck_of_not_running w hrun, PyConfig_SetBytesArgv, Py_InitializeFromConfig,
          PyConfig_Clear, PyStatus_Exception, hargv, hinit] at h
    all_goals
      simp [initialize_interpreter, initialize_interpreter_config,
        precheck_of_not_running w hrun, PyConfig_SetBytesArgv, PyConfig_Clear,
        PyStatus_Exception, hargv] at h
  · simp [initialize_interpreter, initialize_config_of_running w hrun, AlreadyRunning,
      pybind11_fail] at h

/-- Through the options overload alone the counter does track the running
state. -/
theorem options_lifecycle_counter (w : World) (h : OptionsLifecycle w) :
    counter_tracks_running w := by
  induction h with
  | start w hrun hnum => simp [counter_tracks_running, hrun, hnum]
  | started w a b c rt _ hok _ =>
    simp [counter_tracks_running, initialize_returned_counter a b c rt w hok,
      initialize_returned_running a b c rt w hok]
  | finalized w fin _ _ =>
    simp [counter_tracks_running, (finalize_state fin w).1, (finalize_state fin w).2.1]

/-- C12 (the code at the failing input): one successful start of the fresh
world through the `PyConfig` overload, or through the `scoped_interpreter`
constructor that takes a `PyConfig`, reaches a lifecycle state in which the
interpreter is running and the interpreters-seen counter is 0, not 1. The same
start through the options overload leaves the counter at 1. -/
theorem pyconfig_start_leaves_counter_zero :
    Lifecycle World.running_config ∧
    World.running_config.py_initialized = true ∧
    World.running_config.num_interpreters_seen = 0 ∧
    ¬ counter_tracks_running World.running_config ∧
    scoped_interpreter.ctor_config PyConfig_InitPythonConfig [] true StartReplies.success
        World.fresh
      = (Outcome.returned, some { is_valid := true },
          { parse_argv := 1, install_signal_handlers := 1, argv := [] },
          World.running_config) ∧
    (initialize_interpreter true [] true StartReplies.success
        World.fresh).2.num_interpreters_seen = 1 := by
  refine ⟨?_, by decide, by decide, ?_, by decide, by decide⟩
  · exact Lifecycle.started_config World.fresh PyConfig_InitPythonConfig [] true
      StartReplies.success (Lifecycle.start World.fresh rfl rfl) (by decide)
  · unfold counter_tracks_running
    decide

end pybind11
